import Mathlib

/-!
Shallow embedding of the wallet-authentication and social-verification core
of the myriad-api repository.

The definitions below translate, line for line, the relevant parts of
`src/interceptors/authentication.interceptor.ts` (nonce challenge-response
login, permission gate, wallet-address validation, post-login side effects)
and `src/controllers/vote.controller.ts` (the `UserCredentialController`:
social credential verification, credential linking, and on-chain fund
sweeps).  JavaScript strings are modelled as Lean `String`s with hand-rolled,
fuel-free-reducible versions of the JS string primitives the code uses
(`split`, `startsWith`, `endsWith`, `search`, `replace`, `substring`), so
that concrete runs evaluate by `decide`/`rfl`.  Repositories are modelled as
in-memory lists; external services (social-platform read clients, the chain
client, the signature checker `validateAccount` which lives outside the two
source files) are parameters of the corresponding functions.
-/

/-! ## JS string primitives -/

/-- JS `String.prototype.startsWith`, over the character list. -/
def jsStartsWith (s pre : String) : Bool :=
  pre.toList.isPrefixOf s.toList

/-- JS `String.prototype.endsWith`, over the character list. -/
def jsEndsWith (s suf : String) : Bool :=
  suf.toList.isSuffixOf s.toList

/-- Worker for `jsSplit`: splits a character list at every occurrence of the
(non-empty) separator.  The extra `Nat` argument is fuel that keeps the
recursion structural; `jsSplit` always supplies enough of it. -/
def jsSplitAux (sep : List Char) : Nat → List Char → List (List Char)
  | _, [] => [[]]
  | 0, s => [s]
  | fuel + 1, c :: rest =>
    if sep.isPrefixOf (c :: rest) then
      [] :: jsSplitAux sep fuel ((c :: rest).drop sep.length)
    else
      match jsSplitAux sep fuel rest with
      | [] => [[c]]
      | t :: ts => (c :: t) :: ts

/-- JS `String.prototype.split` with a string separator.  An empty separator
splits into single characters, exactly as in JS. -/
def jsSplit (s sep : String) : List String :=
  if sep.toList.isEmpty then s.toList.map (fun c => String.mk [c])
  else (jsSplitAux sep.toList (s.toList.length + 1) s.toList).map String.mk

/-- Index of the first occurrence of `pat` in `hay` (character index), the
result of JS `String.prototype.search` / `indexOf` with a literal pattern. -/
def listFindSubstrIdx (hay pat : List Char) : Option Nat :=
  (List.range (hay.length + 1)).find? (fun i => pat.isPrefixOf (hay.drop i))

/-- Whether `pat` occurs in `hay` as a substring: JS `s.search(pat) !== -1`
for a literal (regex-metacharacter-free) pattern. -/
def strContains (hay pat : String) : Bool :=
  (listFindSubstrIdx hay.toList pat.toList).isSome

/-- JS `s.replace(/c/g, d)` for a single character `c`: replace every
occurrence of the character `a` by `b`. -/
def charReplace (a b : Char) (s : String) : String :=
  String.mk (s.toList.map (fun c => if c == a then b else c))

/-- Worker for `jsReplaceFirst`. -/
def jsReplaceFirstAux (pat repl : List Char) : List Char → List Char
  | [] => []
  | c :: rest =>
    if pat.isPrefixOf (c :: rest) then repl ++ (c :: rest).drop pat.length
    else c :: jsReplaceFirstAux pat repl rest

/-- JS `String.prototype.replace` with a string pattern: replaces only the
first occurrence. -/
def jsReplaceFirst (s pat repl : String) : String :=
  String.mk (jsReplaceFirstAux pat.toList repl.toList s.toList)

/-- JS `s.substring(start, start + len)` (clamping, character indices). -/
def strSubstring (s : String) (start len : Nat) : String :=
  String.mk ((s.toList.drop start).take len)

/-! ## Error model

`HttpErrors.*` constructors thrown by the code, plus `jsError` for JS
runtime exceptions (e.g. indexing an empty array) and for errors propagated
out of awaited external calls. -/

inductive HttpErr where
  | unauthorized (msg : String)
  | unprocessableEntity (msg : String)
  | forbidden (msg : String)
  | notFound (msg : String)
  | jsError (msg : String)
deriving DecidableEq

deriving instance DecidableEq for Except

/-! ## Address validation (`AuthenticationInterceptor.validateWalletAddress`) -/

/-- One character of the `^[a-z0-9_-]+$` NEAR-id character class. -/
def isNearIdChar (c : Char) : Bool :=
  (('a' ≤ c) && (c ≤ 'z')) || (('0' ≤ c) && (c ≤ '9')) || c == '_' || c == '-'

/-- JS `nearId.match('^[a-z0-9_-]+$') !== null`. -/
def matchesNearIdPattern (s : String) : Bool :=
  (!s.toList.isEmpty) && s.toList.all isNearIdChar

/-- The NEAR suffix selected by the environment sniffed from the NEAR
network's RPC URL: `rpcURL.split('.')[1]` equal to `'development'` selects
`.testnet`, anything else (including a missing segment) selects `.near`. -/
def nearSuffix (nearRpcURL : String) : String :=
  if (jsSplit nearRpcURL ".").getD 1 "" == "development" then ".testnet"
  else ".near"

/-- `AuthenticationInterceptor.validateWalletAddress`, with the configured
NEAR network's `rpcURL` passed in place of the repository lookup
`networkRepository.findById(NetworkType.NEAR)`. -/
def validateWalletAddress (nearRpcURL : String) (id : String) :
    Except HttpErr Unit :=
  if id.length == 66 then
    if !(jsStartsWith id "0x") then
      .error (.unprocessableEntity "Invalid polkadot address")
    else .ok ()
  else if id.length == 42 then
    if !(jsStartsWith id "0x") then
      .error (.unprocessableEntity "Invalid ethereum address")
    else .ok ()
  else
    let suffix := nearSuffix nearRpcURL
    let nearStatus := jsEndsWith id suffix
    let nearId := (jsSplit id suffix).headD ""
    if !nearStatus then .error (.unprocessableEntity "Invalid near id")
    else if !(matchesNearIdPattern nearId) then
      .error (.unprocessableEntity
        "Only allowed ascii letter (a-z), number (0-9), dash(-) and underscore(_)")
    else .ok ()

/-- Rendering of claim C5's phrase "whose stripped local id": the local id
obtained by stripping the network suffix off the END of a chain-3 address
(the code instead keeps only what precedes the FIRST occurrence of the
suffix). -/
def specStrippedLocalId (id suffix : String) : String :=
  String.mk (id.toList.take (id.toList.length - suffix.toList.length))

/-! ## Data model of the authentication interceptor -/

/-- A persisted wallet row (`Wallet` model): `id` is the chain address. -/
structure Wallet where
  id : String
  type : String
  network : String
  primary : Bool
  userId : String
deriving DecidableEq

/-- A persisted user row, with the current nonce challenge and the granted
permission keys (the `PermissionKeys` enum values are modelled as the strings
`"ADMIN"` and `"USER"`). -/
structure User where
  id : String
  name : String
  username : String
  nonce : Int
  permissions : List String
deriving DecidableEq

/-- The transient login `Credential` body.  `nonce` is `none` when absent
from the request (JS `undefined`/`null`). -/
structure Credential where
  publicAddress : String
  nonce : Option Int
  walletType : String
  networkType : String
deriving DecidableEq

/-- The slice of the persistence layer the interceptor touches: registered
network ids, wallets, users. -/
structure AuthDB where
  networks : List String
  wallets : List Wallet
  users : List User
deriving DecidableEq

/-- Internal error raised inside the interceptor's `try` block: either a
plain `new Error(msg)` or a thrown `HttpErrors.*`. -/
inductive TryErr where
  | plain (msg : String)
  | http (e : HttpErr)
deriving DecidableEq

/-- `err.message`, what the catch-all re-wrap preserves. -/
def TryErr.message : TryErr → String
  | .plain m => m
  | .http (.unauthorized m) => m
  | .http (.unprocessableEntity m) => m
  | .http (.forbidden m) => m
  | .http (.notFound m) => m
  | .http (.jsError m) => m

/-- lodash `intersection(a, [k])` restricted to what the interceptor
observes (the head of the result): the elements of `a` that occur in the
second list, in `a`-order.  lodash additionally deduplicates, which cannot
change the head. -/
def lodashIntersection (a b : List String) : List String :=
  a.filter (fun x => b.contains x)

/-- The wallet id the login path resolves:
`const [publicAddress, nearAccount] = credential.publicAddress.split('/')`
followed by `nearAccount ?? publicAddress`. -/
def credLookupId (cred : Credential) : String :=
  let parts := jsSplit cred.publicAddress "/"
  (parts.get? 1).getD (parts.headD "")

/-- `walletRepository.findOne({where: {id, type}})`. -/
def findWallet (db : AuthDB) (wid wty : String) : Option Wallet :=
  db.wallets.find? (fun w => w.id == wid && w.type == wty)

/-- The `include: ['user']` belongs-to resolution: the owning user row. -/
def walletOwner (db : AuthDB) (w : Wallet) : Option User :=
  db.users.find? (fun u => u.id == w.userId)

/-- The body of the `try` block of `beforeAuthenticate` on the login paths
(everything except signup).  `sigVerified` stands for the external
`validateAccount(assign(credential, {publicAddress}))` signature check,
which lives outside the two embedded source files.  Returns the resolved
user that the code attaches to the request context. -/
def beforeAuthLoginTry (sigVerified : Bool) (db : AuthDB) (methodName : String)
    (cred : Credential) : Except TryErr User :=
  match cred.nonce with
  | none => .error (.plain "Invalid nonce!")
  | some n =>
    if n == 0 then .error (.plain "Invalid nonce!")
    else if !(db.networks.contains cred.networkType) then
      .error (.http (.unprocessableEntity "Network not exists"))
    else
      match findWallet db (credLookupId cred) cred.walletType with
      | none => .error (.plain "Wallet address not exists!")
      | some w =>
        match walletOwner db w with
        | none => .error (.plain "Wallet address not exists!")
        | some user =>
          if user.nonce != n then .error (.plain "Invalid nonce!")
          else if !sigVerified then .error (.plain "Failed to verified!")
          else if methodName == "ADMINLOGIN" then
            match (lodashIntersection user.permissions ["ADMIN"]).head? with
            | some p =>
              if p == "ADMIN" then .ok user
              else .error (.http (.forbidden "Invalid admin"))
            | none => .error (.http (.forbidden "Invalid admin"))
          else
            match (lodashIntersection user.permissions ["USER"]).head? with
            | some p =>
              if p == "USER" then .ok user
              else .error (.http (.forbidden "Invalid user"))
            | none => .error (.http (.forbidden "Invalid user"))

/-- `beforeAuthenticate` on the login paths: the `try` body wrapped by the
catch-all `throw new HttpErrors.Unauthorized(err.message)`. -/
def beforeAuthLogin (sigVerified : Bool) (db : AuthDB) (methodName : String)
    (cred : Credential) : Except HttpErr User :=
  match beforeAuthLoginTry sigVerified db methodName cred with
  | .ok u => .ok u
  | .error e => .error (.unauthorized e.message)

/-- `walletRepository.updateAll({primary: false}, {userId: id})`. -/
def demoteUserWallets (userId : String) (ws : List Wallet) : List Wallet :=
  ws.map (fun w => if w.userId == userId then { w with primary := false } else w)

/-- `walletRepository.updateAll({primary: true}, {type: walletType})` — note
the filter has no `userId` clause: it touches every wallet of that type. -/
def promoteTypeWallets (walletType : String) (ws : List Wallet) : List Wallet :=
  ws.map (fun w => if w.type == walletType then { w with primary := true } else w)

/-- The two wallet updates of `afterAuthenticate`'s login branch, applied in
the order they appear in the `Promise.allSettled` array (demote this user's
wallets, then promote every wallet of the submitted type). -/
def afterLoginWalletUpdate (userId walletType : String) (ws : List Wallet) :
    List Wallet :=
  promoteTypeWallets walletType (demoteUserWallets userId ws)

/-- `userRepository.updateById(id, {nonce: newNonce})`. -/
def rotateUserNonce (userId : String) (newNonce : Int) (us : List User) :
    List User :=
  us.map (fun u => if u.id == userId then { u with nonce := newNonce } else u)

/-- The modelled-state part of `afterAuthenticate`'s login branch: nonce
rotation plus the two wallet updates (the currency refresh touches no
modelled state).  `newNonce` is the value produced by the external
`NonceGenerator` package. -/
def afterLoginUpdate (userId walletType : String) (newNonce : Int)
    (db : AuthDB) : AuthDB :=
  { db with
    users := rotateUserNonce userId newNonce db.users,
    wallets := afterLoginWalletUpdate userId walletType db.wallets }

/-- One full login attempt: `beforeAuthenticate`, and on success the
post-login side effects.  When `beforeAuthenticate` throws, `next()` and
`afterAuthenticate` never run, so the state is unchanged. -/
def loginStep (sigVerified : Bool) (newNonce : Int) (db : AuthDB)
    (methodName : String) (cred : Credential) :
    Except HttpErr User × AuthDB :=
  match beforeAuthLogin sigVerified db methodName cred with
  | .ok u => (.ok u, afterLoginUpdate u.id cred.walletType newNonce db)
  | .error e => (.error e, db)

/-- Number of `primary = true` wallets a user owns. -/
def countPrimary (userId : String) (ws : List Wallet) : Nat :=
  (ws.filter (fun w => w.userId == userId && w.primary)).length

/-- The per-wallet effect of the two post-login wallet updates (helper used
to characterize `afterLoginWalletUpdate`). -/
def primaryFlagUpdate (userId walletType : String) (w : Wallet) : Wallet :=
  { w with primary :=
      if w.type == walletType then true
      else if w.userId == userId then false
      else w.primary }

/-- Whether an interceptor outcome is a `Forbidden` HTTP error. -/
def isForbiddenResult {α : Type} : Except HttpErr α → Bool
  | .error (.forbidden _) => true
  | _ => false

/-! ## Data model of the social credential verifier -/

/-- A `People` row (social persona). -/
structure People where
  id : String
  platform : String
  platform_account_id : String
  username : String
  profile_image_url : String
deriving DecidableEq

/-- A `UserCredential` row linking a wallet address (`userId`) to a persona. -/
structure UserCredential where
  id : String
  userId : String
  peopleId : String
  isLogin : Bool
deriving DecidableEq

/-- The slice of the persistence layer the credential controller touches. -/
structure CredDB where
  people : List People
  credentials : List UserCredential
deriving DecidableEq

/-- The `interface User` persona descriptor handed to `createCredential`. -/
structure PersonaInfo where
  id : String
  platform : String
  username : String
  profile_image_url : String
deriving DecidableEq

/-- `UserCredentialController.createCredential`.  `freshPeopleId` and
`freshCredId` stand for the ids the datastore would mint for newly created
rows.  Throws `UnprocessableEntity` ("PlatformAlreadyClaimed") from the
verification loop; otherwise returns the updated store. -/
def createCredential (user : PersonaInfo) (publicKey : String)
    (freshPeopleId freshCredId : String) (db : CredDB) :
    Except HttpErr CredDB :=
  let credentials := db.credentials.filter (fun c => c.userId == publicKey)
  if credentials.any (fun c =>
      match db.people.find? (fun p => p.id == c.peopleId) with
      | some person => person.platform == user.platform
      | none => false) then
    .error (.unprocessableEntity
      ("This " ++ user.platform ++ " does not belong to you!"))
  else
    match db.people.find? (fun p =>
        p.platform_account_id == user.id && p.platform == user.platform) with
    | some foundPeople =>
      match credentials.find? (fun c => c.peopleId == foundPeople.id) with
      | none =>
        .ok { db with credentials := db.credentials ++
          [{ id := freshCredId, userId := publicKey,
             peopleId := foundPeople.id, isLogin := true }] }
      | some foundCredential =>
        .ok { db with credentials := db.credentials.map (fun c =>
          if c.id == foundCredential.id then { c with isLogin := true } else c) }
    | none =>
      .ok { db with
        people := db.people ++
          [{ id := freshPeopleId, platform := user.platform,
             platform_account_id := user.id, username := user.username,
             profile_image_url := user.profile_image_url }],
        credentials := db.credentials ++
          [{ id := freshCredId, userId := publicKey,
             peopleId := freshPeopleId, isLogin := true }] }

/-! ## Fund settlement (chain sweeps) -/

/-- A `Post` row: `platformUserAccountId` is
`post.platformUser?.platform_account_id` (absent when `platformUser` is). -/
structure Post where
  id : String
  peopleId : String
  walletAddress : String
  platformUserAccountId : Option String
deriving DecidableEq

/-- Observable chain-client actions of one sweep. -/
inductive ChainEvent where
  | connect
  | transfer (fromKey toAddr : String) (amount : Int)
  | disconnect
deriving DecidableEq

/-- The fixed network fee deducted from each swept balance. -/
def gasFee : Int := 125000147

/-- `keyring.addFromUri('//' + post.id)`: the key-derivation path keyed by
the post id. -/
def deriveKeyUri (postId : String) : String := "//" ++ postId

/-- The per-post transfer loop shared by both sweeps.  `balance` gives the
free on-chain balance of the address derived from a post id; `transferOk`
says whether `signAndSend` for that post succeeds or throws.  Returns the
thrown message (if any) and the submitted transfers, in order; a throw
aborts the loop. -/
def sweepLoop (balance : String → Nat) (transferOk : String → Bool)
    (toAddr : String) : List Post → Option String × List ChainEvent
  | [] => (none, [])
  | p :: ps =>
    if balance p.id != 0 then
      if transferOk p.id then
        let r := sweepLoop balance transferOk toAddr ps
        (r.1, .transfer (deriveKeyUri p.id) toAddr ((balance p.id : Int) - gasFee) :: r.2)
      else (some "transfer failed", [])
    else sweepLoop balance transferOk toAddr ps

/-- The post filter of `transferEscorwToUser`:
`{peopleId, walletAddress: {neq: userId}}`. -/
def escrowSelect (allPosts : List Post) (peopleId userId : String) :
    List Post :=
  allPosts.filter (fun p => p.peopleId == peopleId && p.walletAddress != userId)

/-- The connect / sweep / disconnect skeleton shared verbatim by both sweep
methods: `polkadotApi()` at the start, the transfer loop, and
`api.disconnect()` — which is only reached when no transfer in the loop
throws (there is no try/finally in the source). -/
def sweepRun (balance : String → Nat) (transferOk : String → Bool)
    (toAddr : String) (posts : List Post) : Option String × List ChainEvent :=
  let r := sweepLoop balance transferOk toAddr posts
  match r.1 with
  | none => (none, .connect :: r.2 ++ [.disconnect])
  | some e => (some e, .connect :: r.2)

/-- `UserCredentialController.transferEscorwToUser`. -/
def transferEscorwToUser (allPosts : List Post) (balance : String → Nat)
    (transferOk : String → Bool) (peopleId userId : String) :
    Option String × List ChainEvent :=
  sweepRun balance transferOk userId (escrowSelect allPosts peopleId userId)

/-- The post selection of `transferTipsToUser`: the repository filter
`{walletAddress: {neq: publicKey}}` followed by the in-memory
`platformUser.platform_account_id` filter. -/
def tipsSelect (allPosts : List Post) (publicKey platformAccountId : String) :
    List Post :=
  (allPosts.filter (fun p => p.walletAddress != publicKey)).filter
    (fun p => match p.platformUserAccountId with
      | some a => a == platformAccountId
      | none => false)

/-- `UserCredentialController.transferTipsToUser`. -/
def transferTipsToUser (allPosts : List Post) (balance : String → Nat)
    (transferOk : String → Bool) (publicKey platformAccountId : String) :
    Option String × List ChainEvent :=
  sweepRun balance transferOk publicKey
    (tipsSelect allPosts publicKey platformAccountId)

/-- The transfer a post contributes on the throw-free path: one event of
`balance - gasFee` signed by the post-derived key when the balance is
nonzero, nothing otherwise. -/
def positiveTransferEvent (balance : String → Nat) (toAddr : String) (p : Post) :
    Option ChainEvent :=
  if balance p.id != 0 then
    some (.transfer (deriveKeyUri p.id) toAddr ((balance p.id : Int) - gasFee))
  else none

/-! ## First verification mode (`POST /verify`, `verifyUser`) -/

/-- The twitter `users/by/username` response data. -/
structure TwUser where
  id : String
  username : String
  profile_image_url : String
deriving DecidableEq

/-- The reddit `about.json` response data. -/
structure RdUser where
  id : String
  name : String
  icon_img : String
deriving DecidableEq

/-- Responses of the external read clients consumed by `verifyUser`:
`twUserLookup` is `none` when the twitter lookup returns no data;
`twTweets` are the fetched tweet texts; `rdTitles` the fetched reddit
post titles. -/
structure VerifyEnv where
  twUserLookup : Option TwUser
  twTweets : List String
  rdUser : RdUser
  rdTitles : List String
deriving DecidableEq

/-- The persona descriptor `verifyUser` builds for twitter (the empty string
plays the falsy role of a missing `profile_image_url`; JS `replace` with a
string pattern rewrites only the first occurrence). -/
def twPersona (u : TwUser) : PersonaInfo :=
  { id := u.id, platform := "twitter", username := u.username,
    profile_image_url :=
      if u.profile_image_url != "" then
        jsReplaceFirst u.profile_image_url "normal" "400x400"
      else "" }

/-- The persona descriptor `verifyUser` builds for reddit. -/
def rdPersona (u : RdUser) : PersonaInfo :=
  { id := "t2_" ++ u.id, platform := "reddit", username := u.name,
    profile_image_url :=
      if u.icon_img != "" then (jsSplit u.icon_img "?").headD "" else "" }

/-- `UserCredentialController.verifyUser` (`POST /verify`).  Only the first
fetched tweet (`tweets[0].text`) resp. the first reddit title
(`children[0].data.title`) is searched for the public key.  Returns the
HTTP outcome, the credential store after the call, and the chain trace of
the tip sweep. -/
def verifyUser (env : VerifyEnv) (db : CredDB) (allPosts : List Post)
    (balance : String → Nat) (transferOk : String → Bool)
    (freshPeopleId freshCredId : String)
    (publicKey username platform : String) :
    Except HttpErr Bool × CredDB × List ChainEvent :=
  if platform == "twitter" then
    match env.twUserLookup with
    | none => (.error (.notFound "Invalid username"), db, [])
    | some u =>
      match env.twTweets.head? with
      | none => (.error (.jsError "TypeError"), db, [])
      | some t0 =>
        if strContains t0 publicKey then
          match createCredential (twPersona u) publicKey freshPeopleId freshCredId db with
          | .error e => (.error e, db, [])
          | .ok db2 =>
            let r := transferTipsToUser allPosts balance transferOk publicKey u.id
            match r.1 with
            | some e => (.error (.jsError e), db2, r.2)
            | none => (.ok true, db2, r.2)
        else (.error (.notFound "Cannot find specified post"), db, [])
  else if platform == "reddit" then
    match env.rdTitles.head? with
    | none => (.error (.notFound "Cannot find the spesified post"), db, [])
    | some title0 =>
      if strContains title0 publicKey then
        match createCredential (rdPersona env.rdUser) publicKey freshPeopleId freshCredId db with
        | .error e => (.error e, db, [])
        | .ok db2 =>
          let r := transferTipsToUser allPosts balance transferOk publicKey
            ("t2_" ++ env.rdUser.id)
          match r.1 with
          | some e => (.error (.jsError e), db2, r.2)
          | none => (.ok true, db2, r.2)
      else (.error (.notFound "Cannot find specified post"), db, [])
  else (.error (.notFound "Platform does not exist"), db, [])

/-! ## Second verification mode (`POST /user-credentials/verify`, `verify`) -/

/-- Fetch outcomes consumed by the second verification mode; `.error`
models a throwing external call (swallowed by the method's catch-all). -/
structure SecondVerifyEnv where
  twFetch : Except String (List String)
  rdFetch : Except String (List String)
  fbFetch : Except String String
deriving DecidableEq

/-- The twitter comparison key of the second mode:
`tweets[0].text.replace(/\n/g, ' ').split(' ')[7]`. -/
def twToken7 (t : String) : Option String :=
  (jsSplit (charReplace '\n' ' ' t) " ").get? 7

/-- The reddit comparison key of the second mode:
`title.replace(/n/g, ' ').split(' ')[7]` — the regex replaces the LETTER
`n`, not a newline. -/
def rdToken7 (t : String) : Option String :=
  (jsSplit (charReplace 'n' ' ' t) " ").get? 7

/-- The canned phrase the facebook branch searches for. -/
def fbCannedPhrase : String := "Saying hi to #MyriadNetwork Public Key: "

/-- The facebook comparison key of the second mode: the 49 characters after
the first occurrence of the canned phrase, `none` (JS `null`) when the
phrase is absent. -/
def fbExtractKey (posts : String) : Option String :=
  match listFindSubstrIdx posts.toList fbCannedPhrase.toList with
  | some i => some (strSubstring posts (i + fbCannedPhrase.length) 49)
  | none => none

/-- `userCredentialRepository.deleteById(credId)`. -/
def deleteCredential (credId : String) (db : CredDB) : CredDB :=
  { db with credentials := db.credentials.filter (fun c => c.id != credId) }

/-- `UserCredentialController.verify` (`POST /user-credentials/verify`).
The whole body sits in a `try` whose `catch` returns `false`, so throwing
fetches, transfers or array accesses yield `false` with whatever side
effects already happened. -/
def verifySecond (env : SecondVerifyEnv) (allPosts : List Post)
    (balance : String → Nat) (transferOk : String → Bool)
    (db : CredDB) (userId peopleId : String) :
    Bool × CredDB × List ChainEvent :=
  match db.people.find? (fun p => p.id == peopleId) with
  | none => (false, db, [])
  | some people =>
    match db.credentials.find? (fun c =>
        c.userId == userId && c.peopleId == peopleId) with
    | none => (false, db, [])
    | some cred =>
      if people.platform == "twitter" then
        match env.twFetch with
        | .error _ => (false, db, [])
        | .ok tweets =>
          match tweets.head? with
          | none => (false, db, [])
          | some t0 =>
            if twToken7 t0 == some userId then
              let r := transferEscorwToUser allPosts balance transferOk peopleId userId
              match r.1 with
              | none => (true, db, r.2)
              | some _ => (false, db, r.2)
            else (false, deleteCredential cred.id db, [])
      else if people.platform == "reddit" then
        match env.rdFetch with
        | .error _ => (false, db, [])
        | .ok titles =>
          match titles.head? with
          | none => (false, db, [])
          | some t0 =>
            if rdToken7 t0 == some userId then
              let r := transferEscorwToUser allPosts balance transferOk peopleId userId
              match r.1 with
              | none => (true, db, r.2)
              | some _ => (false, db, r.2)
            else (false, deleteCredential cred.id db, [])
      else if people.platform == "facebook" then
        match env.fbFetch with
        | .error _ => (false, db, [])
        | .ok posts =>
          if fbExtractKey posts == some userId then
            let r := transferEscorwToUser allPosts balance transferOk peopleId userId
            match r.1 with
            | none => (true, db, r.2)
            | some _ => (false, db, r.2)
          else (false, deleteCredential cred.id db, [])
      else (false, db, [])

/-- Worker for `specWhitespaceTokens`. -/
def wsTokensAux : List Char → List Char → List String
  | [], acc => if acc.isEmpty then [] else [String.mk acc.reverse]
  | c :: rest, acc =>
    if c.isWhitespace then
      if acc.isEmpty then wsTokensAux rest []
      else String.mk acc.reverse :: wsTokensAux rest []
    else wsTokensAux rest (c :: acc)

/-- Rendering of claim C9's phrase "the whitespace-split tokens" of a text:
maximal runs of non-whitespace characters. -/
def specWhitespaceTokens (s : String) : List String :=
  wsTokensAux s.toList []

/-! ## Sample records shared by witnesses and counterexamples -/

/-- A registered wallet owned by user `u1`. -/
def wAlice : Wallet :=
  { id := "0xw", type := "near", network := "myriad", primary := true,
    userId := "u1" }

/-- A user holding only the USER permission. -/
def uAliceUser : User :=
  { id := "u1", name := "Alice", username := "alice", nonce := 5,
    permissions := ["USER"] }

/-- The same user holding ADMIN plus an unrelated USER permission. -/
def uAliceAdmin : User :=
  { id := "u1", name := "Alice", username := "alice", nonce := 5,
    permissions := ["ADMIN", "USER"] }

/-- Auth state whose only user holds only USER. -/
def dbUserOnly : AuthDB := ⟨["myriad"], [wAlice], [uAliceUser]⟩

/-- Auth state whose only user holds ADMIN and USER. -/
def dbAdmin : AuthDB := ⟨["myriad"], [wAlice], [uAliceAdmin]⟩

/-- A login credential matching `wAlice` with the correct nonce 5. -/
def credA : Credential :=
  { publicAddress := "0xw", nonce := some 5, walletType := "near",
    networkType := "myriad" }

/-! ## Theorems for claim C5 -/

/-- Claim C5, counterexample: the address `"ab.near.near"` (length 12, so a
chain-3 address) in a non-development environment ends with `.near` and its
stripped local id `"ab.near"` does NOT match `^[a-z0-9_-]+$`, so by the claim
it must be rejected with InvalidAddressFormat; the code accepts it, because
`id.split('.near')[0]` is `"ab"`, the part before the first occurrence of
the suffix, not the trailing-suffix-stripped local id. -/
theorem validateWalletAddress_stripped_id_counterexample :
    validateWalletAddress "https://rpc.mainnet.near.org" "ab.near.near" = .ok ()
      ∧ jsEndsWith "ab.near.near" ".near" = true
      ∧ matchesNearIdPattern (specStrippedLocalId "ab.near.near" ".near") = false := by
  decide

/-- Claim C5, amended: for every address, length 66 validates as Substrate
exactly when it starts with `0x` (else InvalidAddressFormat citing polkadot);
length 42 validates as EVM exactly when it starts with `0x`, regardless of
the content after the prefix; any other length is a chain-3 address that
must end with `.testnet` when the NEAR network RPC URL's second dot-separated
segment is `development` and with `.near` otherwise, and whose prefix before
the FIRST occurrence of that suffix must match `^[a-z0-9_-]+$`. -/
theorem validateWalletAddress_cases (url id : String) :
    (id.length = 66 →
      ((validateWalletAddress url id = .ok ()) ↔ jsStartsWith id "0x" = true)
        ∧ (jsStartsWith id "0x" = false →
            validateWalletAddress url id
              = .error (.unprocessableEntity "Invalid polkadot address")))
    ∧ (id.length = 42 →
      ((validateWalletAddress url id = .ok ()) ↔ jsStartsWith id "0x" = true)
        ∧ (jsStartsWith id "0x" = false →
            validateWalletAddress url id
              = .error (.unprocessableEntity "Invalid ethereum address")))
    ∧ (id.length ≠ 66 → id.length ≠ 42 →
        ((validateWalletAddress url id = .ok ())
          ↔ (jsEndsWith id (nearSuffix url) = true
              ∧ matchesNearIdPattern
                  ((jsSplit id (nearSuffix url)).headD "") = true))) := by
  refine ⟨fun h66 => ?_, fun h42 => ?_, fun h66 h42 => ?_⟩
  · cases hx : jsStartsWith id "0x" <;>
      simp [validateWalletAddress, h66, hx]
  · have hne : id.length ≠ 66 := by omega
    cases hx : jsStartsWith id "0x" <;>
      simp [validateWalletAddress, h42, hne, hx]
  · cases hs : jsEndsWith id (nearSuffix url) <;>
      cases hm : matchesNearIdPattern ((jsSplit id (nearSuffix url)).head?.getD "") <;>
      simp [validateWalletAddress, h66, h42, hs, hm]

/-- Witness for `validateWalletAddress_cases`: the spec's own example
`"ab.near"` at a non-development RPC URL validates. -/
theorem validateWalletAddress_cases_witness :
    validateWalletAddress "https://rpc.testnet.near.org" "ab.near" = .ok () :=
  ((validateWalletAddress_cases "https://rpc.testnet.near.org" "ab.near").2.2
    (by decide) (by decide)).mpr (by decide)

/-! ## Helper lemmas -/

/-- Helper: the two post-login wallet updates act per-wallet as
`primaryFlagUpdate`. -/
theorem afterLoginWalletUpdate_map (uid wt : String) (ws : List Wallet) :
    afterLoginWalletUpdate uid wt ws = ws.map (primaryFlagUpdate uid wt) := by
  unfold afterLoginWalletUpdate promoteTypeWallets demoteUserWallets
  rw [List.map_map]
  refine List.map_congr_left (fun w _ => ?_)
  by_cases ht : w.type == wt <;> by_cases hu : w.userId == uid <;>
    simp [Function.comp, primaryFlagUpdate, ht, hu]

/-- Helper: membership test against a singleton list is equality. -/
theorem contains_singleton (a key : String) : ([key].contains a) = (a == key) := by
  cases h : a == key <;> simp [List.contains, List.elem, h]

/-- Helper: if `key` occurs in `l`, the head of `intersection(l, [key])` is
`key`. -/
theorem lodashIntersection_head_of_mem (key : String) (l : List String)
    (h : key ∈ l) : (lodashIntersection l [key]).head? = some key := by
  induction l with
  | nil => cases h
  | cons a l ih =>
    unfold lodashIntersection at *
    rw [List.filter_cons, contains_singleton]
    by_cases ha : a = key
    · subst ha; simp
    · have hb : (a == key) = false := by simpa using ha
      rw [hb]
      simp only [Bool.false_eq_true, if_false]
      rcases List.mem_cons.mp h with h1 | h2
      · exact absurd h1.symm ha
      · exact ih h2

/-- Helper: if `key` does not occur in `l`, `intersection(l, [key])` is
empty. -/
theorem lodashIntersection_nil_of_not_mem (key : String) (l : List String)
    (h : key ∉ l) : lodashIntersection l [key] = [] := by
  unfold lodashIntersection
  refine List.filter_eq_nil_iff.mpr (fun a ha => ?_)
  rw [contains_singleton]
  simp only [ne_eq, beq_iff_eq]
  intro hc
  exact h (hc ▸ ha)

/-! ## Theorems for claim C1 -/

/-- Claim C1, counterexample: with wallets `wa` (alice, type near, primary),
`wb` (bob, type near, not primary), `wb2` (bob, type polkadot, primary),
alice's login with walletType `near` flips bob's wallet `wb` to primary:
bob goes from one primary wallet to two, so the post-login side effect
neither preserves the at-most-one-primary-per-user invariant nor leaves
wallets of other users unchanged. -/
theorem afterLogin_other_user_wallet_counterexample :
    countPrimary "bob"
        [⟨"wa", "near", "myriad", true, "alice"⟩,
         ⟨"wb", "near", "myriad", false, "bob"⟩,
         ⟨"wb2", "polkadot", "myriad", true, "bob"⟩] = 1
      ∧ countPrimary "bob"
          (afterLoginWalletUpdate "alice" "near"
            [⟨"wa", "near", "myriad", true, "alice"⟩,
             ⟨"wb", "near", "myriad", false, "bob"⟩,
             ⟨"wb2", "polkadot", "myriad", true, "bob"⟩]) = 2
      ∧ (afterLoginWalletUpdate "alice" "near"
            [⟨"wa", "near", "myriad", true, "alice"⟩,
             ⟨"wb", "near", "myriad", false, "bob"⟩,
             ⟨"wb2", "polkadot", "myriad", true, "bob"⟩]).get? 1
          = some ⟨"wb", "near", "myriad", true, "bob"⟩ := by
  decide

/-- Claim C1 (amended): the post-login side effect sets `primary := false`
on every wallet owned by the logged-in user and then `primary := true` on
every wallet of the submitted walletType REGARDLESS of owner; per wallet,
the submitted type wins, otherwise ownership demotes, otherwise the flag is
unchanged.  In particular wallets of other users are modified and a user
can end up with more than one primary wallet. -/
theorem afterLogin_primary_update_characterization (userId walletType : String)
    (ws : List Wallet) :
    afterLoginWalletUpdate userId walletType ws
      = ws.map (fun w =>
          { w with primary :=
              if w.type == walletType then true
              else if w.userId == userId then false
              else w.primary }) :=
  afterLoginWalletUpdate_map userId walletType ws

/-! ## Theorems for claim C2 -/

/-- Claim C2, counterexample: an admin login by a user whose permission set
is `{USER}` only is rejected, but the error the caller sees is the
catch-all re-wrap `Unauthorized("Invalid admin")` — not a Forbidden error
(the internal `HttpErrors.Forbidden` is swallowed by the re-wrap). -/
theorem adminLogin_forbidden_counterexample :
    beforeAuthLogin true dbUserOnly "ADMINLOGIN" credA
        = .error (.unauthorized "Invalid admin")
      ∧ isForbiddenResult (beforeAuthLogin true dbUserOnly "ADMINLOGIN" credA)
          = false := by
  decide

/-- Claim C2 (amended): for an admin-login request that passes nonce,
network, wallet and signature checks, the capability check passes exactly
when ADMIN is a member of the resolved user's permission set (so `{ADMIN}`
and `{ADMIN, USER}` pass, `{USER}` fails, and additional unrelated
permissions never cause rejection); a failing check surfaces as
`Unauthorized("Invalid admin")` because the interceptor's catch-all
re-wraps the internal Forbidden error. -/
theorem adminLogin_permission_gate (sig : Bool) (db : AuthDB)
    (cred : Credential) (n : Int) (w : Wallet) (user : User)
    (hn : cred.nonce = some n) (hn0 : n ≠ 0)
    (hnet : db.networks.contains cred.networkType = true)
    (hw : findWallet db (credLookupId cred) cred.walletType = some w)
    (hu : walletOwner db w = some user)
    (hnonce : user.nonce = n)
    (hsig : sig = true) :
    beforeAuthLogin sig db "ADMINLOGIN" cred
      = if "ADMIN" ∈ user.permissions then .ok user
        else .error (.unauthorized "Invalid admin") := by
  subst hsig
  subst hnonce
  unfold beforeAuthLogin beforeAuthLoginTry
  rw [hn]
  have h0 : (user.nonce == 0) = false := by simpa using hn0
  simp only [h0, hnet, hw, hu, Bool.not_true, Bool.false_eq_true, if_false,
    bne_self_eq_false, Bool.not_false, if_true, beq_self_eq_true]
  by_cases hmem : "ADMIN" ∈ user.permissions
  · rw [if_pos hmem, lodashIntersection_head_of_mem "ADMIN" user.permissions hmem]
    simp
  · rw [if_neg hmem, lodashIntersection_nil_of_not_mem "ADMIN" user.permissions hmem]
    simp [TryErr.message]

/-- Witness for `adminLogin_permission_gate`: the user holding
`{ADMIN, USER}` passes the admin login. -/
theorem adminLogin_permission_gate_witness :
    beforeAuthLogin true dbAdmin "ADMINLOGIN" credA = .ok uAliceAdmin := by
  have h := adminLogin_permission_gate true dbAdmin credA 5 wAlice uAliceAdmin
    rfl (by decide) (by decide) (by decide) (by decide) rfl rfl
  rw [if_pos (by decide)] at h
  exact h

/-- Helper: wallet lookup after the post-login side effects finds the same
wallet with only its `primary` flag rewritten (the lookup filters on `id`
and `type`, which the updates preserve). -/
theorem findWallet_afterLoginUpdate (db : AuthDB) (uid wt : String) (nn : Int)
    (wid wty : String) :
    findWallet (afterLoginUpdate uid wt nn db) wid wty
      = (findWallet db wid wty).map (primaryFlagUpdate uid wt) := by
  unfold findWallet afterLoginUpdate
  show (afterLoginWalletUpdate uid wt db.wallets).find? _ = _
  rw [afterLoginWalletUpdate_map, List.find?_map]
  rfl

/-- Helper: owner lookup after the post-login side effects finds the same
user with only the nonce possibly rotated. -/
theorem walletOwner_afterLoginUpdate (db : AuthDB) (uid wt : String) (nn : Int)
    (w : Wallet) :
    walletOwner (afterLoginUpdate uid wt nn db) (primaryFlagUpdate uid wt w)
      = (walletOwner db w).map
          (fun u => if u.id == uid then { u with nonce := nn } else u) := by
  unfold walletOwner afterLoginUpdate
  show (rotateUserNonce uid nn db.users).find? _ = _
  unfold rotateUserNonce
  rw [List.find?_map]
  congr 1
  congr 1
  funext v
  by_cases hc : v.id == uid <;> simp [Function.comp, primaryFlagUpdate, hc]

/-- Helper: a login whose submitted nonce differs from the stored one fails
with the re-wrapped "Invalid nonce!" error and leaves the state unchanged. -/
theorem loginStep_wrong_nonce (sig : Bool) (nn : Int) (db : AuthDB)
    (m : String) (cred : Credential) (n : Int) (w : Wallet) (user : User)
    (hn : cred.nonce = some n) (hn0 : n ≠ 0)
    (hnet : db.networks.contains cred.networkType = true)
    (hw : findWallet db (credLookupId cred) cred.walletType = some w)
    (hu : walletOwner db w = some user)
    (hnonce : user.nonce ≠ n) :
    loginStep sig nn db m cred = (.error (.unauthorized "Invalid nonce!"), db) := by
  have h0 : (n == 0) = false := by simpa using hn0
  have hbn : (user.nonce != n) = true := by simpa using hnonce
  have hmem : cred.networkType ∈ db.networks := by simpa using hnet
  simp [loginStep, beforeAuthLogin, beforeAuthLoginTry, hn, h0, hmem, hw, hu,
    hbn, TryErr.message]

/-- Helper: inversion of a successful pass through the login `try` body. -/
theorem beforeAuthLoginTry_ok_inversion (sig : Bool) (db : AuthDB) (m : String)
    (cred : Credential) (u : User)
    (h : beforeAuthLoginTry sig db m cred = .ok u) :
    ∃ n w, cred.nonce = some n ∧ n ≠ 0
      ∧ db.networks.contains cred.networkType = true
      ∧ findWallet db (credLookupId cred) cred.walletType = some w
      ∧ walletOwner db w = some u
      ∧ u.nonce = n := by
  unfold beforeAuthLoginTry at h
  cases hn : cred.nonce with
  | none => rw [hn] at h; exact Except.noConfusion h
  | some n =>
    rw [hn] at h
    simp only [] at h
    cases h0 : (n == 0) with
    | true => rw [if_pos h0] at h; exact Except.noConfusion h
    | false =>
      rw [if_neg (by simp [h0])] at h
      cases hnet : db.networks.contains cred.networkType with
      | false =>
        have hnmem : cred.networkType ∉ db.networks := by simpa using hnet
        rw [if_pos (by simp [hnmem])] at h
        exact Except.noConfusion h
      | true =>
        have hmem : cred.networkType ∈ db.networks := by simpa using hnet
        rw [if_neg (by simp [hmem])] at h
        cases hw : findWallet db (credLookupId cred) cred.walletType with
        | none => rw [hw] at h; exact Except.noConfusion h
        | some w =>
          rw [hw] at h
          simp only [] at h
          cases hu : walletOwner db w with
          | none => rw [hu] at h; exact Except.noConfusion h
          | some user =>
            rw [hu] at h
            simp only [] at h
            cases hbn : (user.nonce != n) with
            | true => rw [if_pos hbn] at h; exact Except.noConfusion h
            | false =>
              rw [if_neg (by simp [hbn])] at h
              cases hsig : sig with
              | false =>
                subst hsig
                rw [if_pos (by simp)] at h
                exact Except.noConfusion h
              | true =>
                subst hsig
                rw [if_neg (by simp)] at h
                have huser : user = u := by
                  by_cases hm : (m == "ADMINLOGIN") = true
                  · rw [if_pos hm] at h
                    cases hh : (lodashIntersection user.permissions ["ADMIN"]).head? with
                    | none => rw [hh] at h; exact Except.noConfusion h
                    | some p =>
                      rw [hh] at h
                      simp only [] at h
                      cases hp : (p == "ADMIN") with
                      | false =>
                        rw [if_neg (by simp [hp])] at h
                        exact Except.noConfusion h
                      | true => rw [if_pos hp] at h; exact Except.ok.inj h
                  · rw [if_neg hm] at h
                    cases hh : (lodashIntersection user.permissions ["USER"]).head? with
                    | none => rw [hh] at h; exact Except.noConfusion h
                    | some p =>
                      rw [hh] at h
                      simp only [] at h
                      cases hp : (p == "USER") with
                      | false =>
                        rw [if_neg (by simp [hp])] at h
                        exact Except.noConfusion h
                      | true => rw [if_pos hp] at h; exact Except.ok.inj h
                subst huser
                exact ⟨n, w, rfl, by simpa using h0, rfl, rfl, hu,
                  by simpa using hbn⟩

/-! ## Theorems for claim C3 -/

/-- Claim C3: login fails with the "Invalid nonce!" error (re-wrapped as
Unauthorized, per the interceptor's catch-all) whenever the submitted nonce
is absent or zero (part 1) or differs from the user's stored nonce
(part 2), in both cases leaving the state unchanged; and after a successful
login that rotates the stored nonce to a fresh value, replaying the
consumed nonce fails with "Invalid nonce!" and leaves the state unchanged,
hence fails on every subsequent attempt as well (part 3, including the
fixed-point of the state under repeated replays). -/
theorem loginStep_nonce_protocol :
    (∀ (sig : Bool) (nn : Int) (db : AuthDB) (m : String) (cred : Credential),
        cred.nonce = none ∨ cred.nonce = some 0 →
        loginStep sig nn db m cred
          = (.error (.unauthorized "Invalid nonce!"), db))
    ∧ (∀ (sig : Bool) (nn : Int) (db : AuthDB) (m : String) (cred : Credential)
        (n : Int) (w : Wallet) (user : User),
        cred.nonce = some n → n ≠ 0 →
        db.networks.contains cred.networkType = true →
        findWallet db (credLookupId cred) cred.walletType = some w →
        walletOwner db w = some user →
        user.nonce ≠ n →
        loginStep sig nn db m cred
          = (.error (.unauthorized "Invalid nonce!"), db))
    ∧ (∀ (sig : Bool) (nn : Int) (db : AuthDB) (m : String) (cred : Credential)
        (u : User) (n : Int),
        (loginStep sig nn db m cred).1 = .ok u →
        cred.nonce = some n →
        nn ≠ n →
        (∀ (sig2 : Bool) (nn2 : Int),
            loginStep sig2 nn2 (loginStep sig nn db m cred).2 m cred
              = (.error (.unauthorized "Invalid nonce!"),
                 (loginStep sig nn db m cred).2))
          ∧ ∀ (sig2 : Bool) (nn2 : Int) (k : Nat),
              (fun s => (loginStep sig2 nn2 s m cred).2)^[k]
                  (loginStep sig nn db m cred).2
                = (loginStep sig nn db m cred).2) := by
  refine ⟨?_, ?_, ?_⟩
  · intro sig nn db m cred h
    rcases h with h | h <;>
      simp [loginStep, beforeAuthLogin, beforeAuthLoginTry, h, TryErr.message]
  · intro sig nn db m cred n w user hn hn0 hnet hw hu hnonce
    exact loginStep_wrong_nonce sig nn db m cred n w user hn hn0 hnet hw hu hnonce
  · intro sig nn db m cred u n hok hn hne
    have hbefore : beforeAuthLogin sig db m cred = .ok u := by
      unfold loginStep at hok
      cases hb : beforeAuthLogin sig db m cred with
      | ok u2 =>
        rw [hb] at hok
        exact hok
      | error e => rw [hb] at hok; exact Except.noConfusion hok
    have htry : beforeAuthLoginTry sig db m cred = .ok u := by
      unfold beforeAuthLogin at hbefore
      cases ht : beforeAuthLoginTry sig db m cred with
      | ok u2 =>
        rw [ht] at hbefore
        simp only [] at hbefore
        rw [Except.ok.inj hbefore]
      | error e => rw [ht] at hbefore; exact Except.noConfusion hbefore
    obtain ⟨n2, w, hn2, hn20, hnet, hw, hu, hun⟩ :=
      beforeAuthLoginTry_ok_inversion sig db m cred u htry
    have hnn : n2 = n := by
      rw [hn] at hn2
      exact (Option.some.inj hn2).symm
    subst hnn
    have hstep : loginStep sig nn db m cred
        = (.ok u, afterLoginUpdate u.id cred.walletType nn db) := by
      unfold loginStep
      rw [hbefore]
    rw [hstep]
    have hreplay : ∀ (sig2 : Bool) (nn2 : Int),
        loginStep sig2 nn2 (afterLoginUpdate u.id cred.walletType nn db) m cred
          = (.error (.unauthorized "Invalid nonce!"),
             afterLoginUpdate u.id cred.walletType nn db) := by
      intro sig2 nn2
      refine loginStep_wrong_nonce sig2 nn2 _ m cred n2
        (primaryFlagUpdate u.id cred.walletType w)
        { u with nonce := nn } hn2 hn20 ?_ ?_ ?_ ?_
      · exact hnet
      · rw [findWallet_afterLoginUpdate, hw]
        rfl
      · rw [walletOwner_afterLoginUpdate, hu]
        simp
      · show nn ≠ n2
        exact hne
    exact ⟨fun sig2 nn2 => hreplay sig2 nn2,
      fun sig2 nn2 k =>
        Function.iterate_fixed (congrArg Prod.snd (hreplay sig2 nn2)) k⟩

/-- Witness for `loginStep_nonce_protocol`: a successful login with nonce 5
rotating the stored nonce to 6 makes a replay of nonce 5 fail with
"Invalid nonce!" and leave the state unchanged. -/
theorem loginStep_nonce_protocol_witness :
    loginStep true 7 (loginStep true 6 dbUserOnly "LOGIN" credA).2 "LOGIN" credA
      = (.error (.unauthorized "Invalid nonce!"),
         (loginStep true 6 dbUserOnly "LOGIN" credA).2) :=
  (loginStep_nonce_protocol.2.2 true 6 dbUserOnly "LOGIN" credA uAliceUser 5
    (by decide) rfl (by decide)).1 true 7

/-- Helper: the transfer loop itself emits neither connect nor disconnect
events. -/
theorem sweepLoop_counts (balance : String → Nat) (transferOk : String → Bool)
    (toAddr : String) (posts : List Post) :
    (sweepLoop balance transferOk toAddr posts).2.count ChainEvent.disconnect = 0
      ∧ (sweepLoop balance transferOk toAddr posts).2.count ChainEvent.connect = 0 := by
  induction posts with
  | nil => simp [sweepLoop]
  | cons p ps ih =>
    by_cases hb : balance p.id != 0
    · by_cases ht : transferOk p.id
      · simp [sweepLoop, hb, ht, List.count_cons, ih.1, ih.2]
      · simp [sweepLoop, hb, ht]
    · simp [sweepLoop, hb, ih.1, ih.2]

/-- Helper: connect/disconnect bookkeeping of one sweep run: exactly one
connect always; exactly one disconnect when no transfer threw, none when
one did. -/
theorem sweepRun_counts (balance : String → Nat) (transferOk : String → Bool)
    (toAddr : String) (posts : List Post) :
    ((sweepRun balance transferOk toAddr posts).1 = none →
        (sweepRun balance transferOk toAddr posts).2.count ChainEvent.disconnect = 1)
      ∧ ((sweepRun balance transferOk toAddr posts).1 ≠ none →
          (sweepRun balance transferOk toAddr posts).2.count ChainEvent.disconnect = 0)
      ∧ (sweepRun balance transferOk toAddr posts).2.count ChainEvent.connect = 1 := by
  have h := sweepLoop_counts balance transferOk toAddr posts
  unfold sweepRun
  cases hr : (sweepLoop balance transferOk toAddr posts).1 with
  | none => simp [hr, List.count_cons, List.count_append, h.1, h.2]
  | some e => simp [hr, List.count_cons, List.count_append, h.1, h.2]

/-- Helper: with no transfer failures the loop never throws and emits
exactly the positive-balance transfers, in post order. -/
theorem sweepLoop_all_ok (balance : String → Nat) (toAddr : String)
    (posts : List Post) :
    sweepLoop balance (fun _ => true) toAddr posts
      = (none, posts.filterMap (positiveTransferEvent balance toAddr)) := by
  induction posts with
  | nil => simp [sweepLoop]
  | cons p ps ih =>
    by_cases hb : balance p.id != 0 <;>
      simp [sweepLoop, positiveTransferEvent, hb, ih]

/-- Helper: a guarded `filterMap` keeps as many elements as the guard's
`filter`. -/
theorem length_filterMap_guard {α β : Type} (f : α → β) (c : α → Bool)
    (l : List α) :
    (l.filterMap (fun a => if c a then some (f a) else none)).length
      = (l.filter c).length := by
  induction l with
  | nil => rfl
  | cons a l ih => by_cases hc : c a <;> simp [hc, ih]

/-! ## Theorems for claim C6 -/

/-- Claim C6, counterexample: a sweep over one matching post with positive
balance whose transfer throws exits with the error and NEVER disconnects —
the chain connection is not released on the throwing exit path, because
`api.disconnect()` sits after the loop with no try/finally. -/
theorem transferEscorw_disconnect_counterexample :
    (transferEscorwToUser [⟨"p1", "pe", "addr", none⟩] (fun _ => 1)
        (fun _ => false) "pe" "u").1 = some "transfer failed"
      ∧ (transferEscorwToUser [⟨"p1", "pe", "addr", none⟩] (fun _ => 1)
          (fun _ => false) "pe" "u").2.count ChainEvent.disconnect = 0 := by
  decide

/-- Claim C6 (amended): each sweep invocation (escrow or tips) acquires
exactly one chain connection; it disconnects exactly once on the no-throw
path, and does NOT disconnect at all when a per-post transfer throws (the
error propagates past the `api.disconnect()` call). -/
theorem sweep_connection_release (allPosts : List Post)
    (balance : String → Nat) (transferOk : String → Bool)
    (peopleId userId publicKey platformAccountId : String) :
    ((transferEscorwToUser allPosts balance transferOk peopleId userId).1 = none →
        (transferEscorwToUser allPosts balance transferOk peopleId userId).2.count
          ChainEvent.disconnect = 1)
      ∧ ((transferEscorwToUser allPosts balance transferOk peopleId userId).1 ≠ none →
          (transferEscorwToUser allPosts balance transferOk peopleId userId).2.count
            ChainEvent.disconnect = 0)
      ∧ (transferEscorwToUser allPosts balance transferOk peopleId userId).2.count
          ChainEvent.connect = 1
      ∧ ((transferTipsToUser allPosts balance transferOk publicKey platformAccountId).1
            = none →
          (transferTipsToUser allPosts balance transferOk publicKey
            platformAccountId).2.count ChainEvent.disconnect = 1)
      ∧ ((transferTipsToUser allPosts balance transferOk publicKey
            platformAccountId).1 ≠ none →
          (transferTipsToUser allPosts balance transferOk publicKey
            platformAccountId).2.count ChainEvent.disconnect = 0)
      ∧ (transferTipsToUser allPosts balance transferOk publicKey
          platformAccountId).2.count ChainEvent.connect = 1 := by
  have he := sweepRun_counts balance transferOk userId
    (escrowSelect allPosts peopleId userId)
  have ht := sweepRun_counts balance transferOk publicKey
    (tipsSelect allPosts publicKey platformAccountId)
  exact ⟨he.1, he.2.1, he.2.2, ht.1, ht.2.1, ht.2.2⟩

/-- Witness for `sweep_connection_release`: with a succeeding transfer the
connection is released exactly once; with a throwing transfer it is never
released. -/
theorem sweep_connection_release_witness :
    (transferEscorwToUser [⟨"p1", "pe", "addr", none⟩] (fun _ => 1)
        (fun _ => true) "pe" "u").2.count ChainEvent.disconnect = 1
      ∧ (transferEscorwToUser [⟨"p1", "pe", "addr", none⟩] (fun _ => 1)
          (fun _ => false) "pe" "u").2.count ChainEvent.disconnect = 0 :=
  ⟨(sweep_connection_release [⟨"p1", "pe", "addr", none⟩] (fun _ => 1)
      (fun _ => true) "pe" "u" "pk" "pa").1 (by decide),
   (sweep_connection_release [⟨"p1", "pe", "addr", none⟩] (fun _ => 1)
      (fun _ => false) "pe" "u" "pk" "pa").2.1 (by decide)⟩

/-! ## Theorems for claim C7 -/

/-- Claim C7: a fund sweep (escrow variant) selects exactly the posts of
the given persona whose escrowed wallet address differs from the target
(tips variant: the posts of the given platform account whose address
differs from the target), processes them in order, and — when no transfer
throws — submits exactly one transfer of `balance - gasFee` per selected
post with nonzero balance, signed by the key derived from the post id; the
number of transfers equals the number of selected posts with nonzero
balance. -/
theorem sweep_selects_and_transfers (allPosts : List Post)
    (balance : String → Nat)
    (peopleId userId publicKey platformAccountId : String) :
    transferEscorwToUser allPosts balance (fun _ => true) peopleId userId
        = (none, .connect ::
            (escrowSelect allPosts peopleId userId).filterMap
              (positiveTransferEvent balance userId) ++ [.disconnect])
      ∧ ((escrowSelect allPosts peopleId userId).filterMap
            (positiveTransferEvent balance userId)).length
          = ((escrowSelect allPosts peopleId userId).filter
              (fun p => balance p.id != 0)).length
      ∧ (∀ p, p ∈ escrowSelect allPosts peopleId userId
            ↔ p ∈ allPosts ∧ p.peopleId = peopleId ∧ p.walletAddress ≠ userId)
      ∧ transferTipsToUser allPosts balance (fun _ => true) publicKey
            platformAccountId
          = (none, .connect ::
              (tipsSelect allPosts publicKey platformAccountId).filterMap
                (positiveTransferEvent balance publicKey) ++ [.disconnect])
      ∧ (∀ p, p ∈ tipsSelect allPosts publicKey platformAccountId
            ↔ p ∈ allPosts ∧ p.walletAddress ≠ publicKey
                ∧ p.platformUserAccountId = some platformAccountId) := by
  refine ⟨?_, ?_, ?_, ?_, ?_⟩
  · simp [transferEscorwToUser, sweepRun, sweepLoop_all_ok]
  · exact length_filterMap_guard _ _ _
  · intro p
    simp [escrowSelect, List.mem_filter, and_assoc]
  · simp [transferTipsToUser, sweepRun, sweepLoop_all_ok]
  · intro p
    cases hpa : p.platformUserAccountId with
    | none => simp [tipsSelect, List.mem_filter, hpa, and_assoc]
    | some a =>
      simp [tipsSelect, List.mem_filter, hpa, and_assoc]
      tauto

/-- Helper: the only error `createCredential` can raise is the
platform-already-claimed UnprocessableEntity from the verification loop. -/
theorem createCredential_error_shape (user : PersonaInfo)
    (pk fpid fcid : String) (db : CredDB) (e : HttpErr)
    (h : createCredential user pk fpid fcid db = .error e) :
    e = .unprocessableEntity
        ("This " ++ user.platform ++ " does not belong to you!") := by
  unfold createCredential at h
  simp only [] at h
  cases hg : (db.credentials.filter (fun c => c.userId == pk)).any (fun c =>
      match db.people.find? (fun p => p.id == c.peopleId) with
      | some person => person.platform == user.platform
      | none => false) with
  | true =>
    rw [if_pos hg] at h
    exact (Except.error.inj h).symm
  | false =>
    rw [if_neg (by simp [hg])] at h
    cases hfp : db.people.find? (fun p =>
        p.platform_account_id == user.id && p.platform == user.platform) with
    | none => rw [hfp] at h; exact Except.noConfusion h
    | some fp =>
      rw [hfp] at h
      simp only [] at h
      cases hfc : (db.credentials.filter (fun c => c.userId == pk)).find?
          (fun c => c.peopleId == fp.id) with
      | none => rw [hfc] at h; exact Except.noConfusion h
      | some fc => rw [hfc] at h; exact Except.noConfusion h

/-! ## Theorems for claim C4 -/

/-- Claim C4 (evidence of the code bug): a first-time claim on an empty
store creates exactly one persona and one credential; re-invoking
`createCredential` with the SAME (wallet, platform, persona) pair on the
resulting store is rejected with the PlatformAlreadyClaimed error, because
the verification loop throws for ANY existing same-platform credential of
the wallet without comparing persona ids — the isLogin-update branch for
the identical pair is unreachable. -/
theorem createCredential_same_persona_rejected :
    createCredential ⟨"T1", "twitter", "alice", ""⟩ "PK" "P1" "C1" ⟨[], []⟩
        = .ok ⟨[⟨"P1", "twitter", "T1", "alice", ""⟩], [⟨"C1", "PK", "P1", true⟩]⟩
      ∧ createCredential ⟨"T1", "twitter", "alice", ""⟩ "PK" "Pnew" "Cnew"
          ⟨[⟨"P1", "twitter", "T1", "alice", ""⟩], [⟨"C1", "PK", "P1", true⟩]⟩
        = .error (.unprocessableEntity "This twitter does not belong to you!") := by
  decide

/-! ## Theorems for claim C8 -/

/-- Claim C8, counterexample: the public key occurs as a substring of a
fetched tweet (the second one), yet verification fails with the
ProofNotFound error — only `tweets[0].text` is ever searched. -/
theorem verifyUser_second_tweet_counterexample :
    (["hello", "x KEY1 y"] : List String).any
        (fun t => strContains t "KEY1") = true
      ∧ verifyUser
          ⟨some ⟨"tid", "tuser", ""⟩, ["hello", "x KEY1 y"], ⟨"rid", "rname", ""⟩, []⟩
          ⟨[], []⟩ [] (fun _ => 0) (fun _ => true) "fp" "fc" "KEY1" "tuser" "twitter"
        = (.error (.notFound "Cannot find specified post"), ⟨[], []⟩, []) := by
  decide

/-- Claim C8 (amended): in the first verification mode, given the account
lookup succeeds and at least one post is fetched, the call fails with the
ProofNotFound error ("Cannot find specified post") exactly when the public
key does not occur as a substring of the FIRST fetched post's text —
`tweets[0].text` for twitter, `children[0].data.title` for reddit; later
fetched posts are never searched.  When the key does occur there and
credential linking and the tip sweep succeed, the call returns true with
the linked store. -/
theorem verifyUser_first_post_proof :
    (∀ (env : VerifyEnv) (db : CredDB) (allPosts : List Post)
        (balance : String → Nat) (transferOk : String → Bool)
        (fpid fcid publicKey username : String) (u : TwUser) (t0 : String)
        (rest : List String),
      env.twUserLookup = some u → env.twTweets = t0 :: rest →
      ((verifyUser env db allPosts balance transferOk fpid fcid publicKey
            username "twitter").1
          = .error (.notFound "Cannot find specified post")
        ↔ strContains t0 publicKey = false)
        ∧ (∀ db2, strContains t0 publicKey = true →
            createCredential (twPersona u) publicKey fpid fcid db = .ok db2 →
            (transferTipsToUser allPosts balance transferOk publicKey u.id).1
              = none →
            verifyUser env db allPosts balance transferOk fpid fcid publicKey
                username "twitter"
              = (.ok true, db2,
                 (transferTipsToUser allPosts balance transferOk publicKey
                   u.id).2)))
    ∧ (∀ (env : VerifyEnv) (db : CredDB) (allPosts : List Post)
        (balance : String → Nat) (transferOk : String → Bool)
        (fpid fcid publicKey username : String) (t0 : String)
        (rest : List String),
      env.rdTitles = t0 :: rest →
      ((verifyUser env db allPosts balance transferOk fpid fcid publicKey
            username "reddit").1
          = .error (.notFound "Cannot find specified post")
        ↔ strContains t0 publicKey = false)
        ∧ (∀ db2, strContains t0 publicKey = true →
            createCredential (rdPersona env.rdUser) publicKey fpid fcid db
              = .ok db2 →
            (transferTipsToUser allPosts balance transferOk publicKey
                ("t2_" ++ env.rdUser.id)).1 = none →
            verifyUser env db allPosts balance transferOk fpid fcid publicKey
                username "reddit"
              = (.ok true, db2,
                 (transferTipsToUser allPosts balance transferOk publicKey
                   ("t2_" ++ env.rdUser.id)).2))) := by
  constructor
  · intro env db allPosts balance transferOk fpid fcid publicKey username u t0
      rest hu ht
    constructor
    · cases hc : strContains t0 publicKey with
      | false => simp [verifyUser, hu, ht, hc]
      | true =>
        simp only [hc, Bool.true_eq_false, iff_false]
        intro hcontra
        cases hcc : createCredential (twPersona u) publicKey fpid fcid db with
        | error e =>
          have hval : (verifyUser env db allPosts balance transferOk fpid fcid
              publicKey username "twitter").1 = .error e := by
            simp [verifyUser, hu, ht, hc, hcc]
          rw [hval] at hcontra
          have he := createCredential_error_shape _ _ _ _ _ _ hcc
          rw [he] at hcontra
          simp at hcontra
        | ok db2 =>
          cases htr : (transferTipsToUser allPosts balance transferOk publicKey
              u.id).1 with
          | none =>
            have hval : (verifyUser env db allPosts balance transferOk fpid fcid
                publicKey username "twitter").1 = .ok true := by
              simp [verifyUser, hu, ht, hc, hcc, htr]
            rw [hval] at hcontra
            exact Except.noConfusion hcontra
          | some e =>
            have hval : (verifyUser env db allPosts balance transferOk fpid fcid
                publicKey username "twitter").1 = .error (.jsError e) := by
              simp [verifyUser, hu, ht, hc, hcc, htr]
            rw [hval] at hcontra
            simp at hcontra
    · intro db2 hc hcc htr
      simp [verifyUser, hu, ht, hc, hcc, htr]
  · intro env db allPosts balance transferOk fpid fcid publicKey username t0
      rest ht
    constructor
    · cases hc : strContains t0 publicKey with
      | false => simp [verifyUser, ht, hc]
      | true =>
        simp only [hc, Bool.true_eq_false, iff_false]
        intro hcontra
        cases hcc : createCredential (rdPersona env.rdUser) publicKey fpid fcid
            db with
        | error e =>
          have hval : (verifyUser env db allPosts balance transferOk fpid fcid
              publicKey username "reddit").1 = .error e := by
            simp [verifyUser, ht, hc, hcc]
          rw [hval] at hcontra
          have he := createCredential_error_shape _ _ _ _ _ _ hcc
          rw [he] at hcontra
          simp at hcontra
        | ok db2 =>
          cases htr : (transferTipsToUser allPosts balance transferOk publicKey
              ("t2_" ++ env.rdUser.id)).1 with
          | none =>
            have hval : (verifyUser env db allPosts balance transferOk fpid fcid
                publicKey username "reddit").1 = .ok true := by
              simp [verifyUser, ht, hc, hcc, htr]
            rw [hval] at hcontra
            exact Except.noConfusion hcontra
          | some e =>
            have hval : (verifyUser env db allPosts balance transferOk fpid fcid
                publicKey username "reddit").1 = .error (.jsError e) := by
              simp [verifyUser, ht, hc, hcc, htr]
            rw [hval] at hcontra
            simp at hcontra
    · intro db2 hc hcc htr
      simp [verifyUser, ht, hc, hcc, htr]

/-- Witness for `verifyUser_first_post_proof`: on twitter, a first tweet
containing the key leads to a created persona and credential and a
completed tip sweep returning true; on reddit, the same with a first post
title containing the key. -/
theorem verifyUser_first_post_proof_witness :
    verifyUser ⟨some ⟨"tid", "tuser", ""⟩, ["hello KEY1"], ⟨"rid", "rname", ""⟩, []⟩
        ⟨[], []⟩ [] (fun _ => 0) (fun _ => true) "fp" "fc" "KEY1" "tuser" "twitter"
      = (.ok true,
         ⟨[⟨"fp", "twitter", "tid", "tuser", ""⟩], [⟨"fc", "KEY1", "fp", true⟩]⟩,
         [ChainEvent.connect, ChainEvent.disconnect])
    ∧ verifyUser ⟨none, [], ⟨"rid", "rname", ""⟩, ["hi KEY2"]⟩
        ⟨[], []⟩ [] (fun _ => 0) (fun _ => true) "fp" "fc" "KEY2" "ruser" "reddit"
      = (.ok true,
         ⟨[⟨"fp", "reddit", "t2_rid", "rname", ""⟩], [⟨"fc", "KEY2", "fp", true⟩]⟩,
         [ChainEvent.connect, ChainEvent.disconnect]) :=
  ⟨(verifyUser_first_post_proof.1
      ⟨some ⟨"tid", "tuser", ""⟩, ["hello KEY1"], ⟨"rid", "rname", ""⟩, []⟩
      ⟨[], []⟩ [] (fun _ => 0) (fun _ => true) "fp" "fc" "KEY1" "tuser"
      ⟨"tid", "tuser", ""⟩ "hello KEY1" [] rfl rfl).2
    ⟨[⟨"fp", "twitter", "tid", "tuser", ""⟩], [⟨"fc", "KEY1", "fp", true⟩]⟩
    (by decide) (by decide) (by decide),
   (verifyUser_first_post_proof.2
      ⟨none, [], ⟨"rid", "rname", ""⟩, ["hi KEY2"]⟩
      ⟨[], []⟩ [] (fun _ => 0) (fun _ => true) "fp" "fc" "KEY2" "ruser"
      "hi KEY2" [] rfl).2
    ⟨[⟨"fp", "reddit", "t2_rid", "rname", ""⟩], [⟨"fc", "KEY2", "fp", true⟩]⟩
    (by decide) (by decide) (by decide)⟩

/-! ## Theorems for claim C9 -/

/-- Claim C9, counterexample: for a facebook-linked credential, the token
at index 7 of the whitespace-split text of the latest fetched post equals
`userId`, yet the second verification mode deletes the credential and
returns false — the facebook branch does not compare token 7 at all, it
extracts 49 characters after a canned phrase (absent here, so the key is
null). -/
theorem verifySecond_token7_counterexample :
    (specWhitespaceTokens "a b c d e f g UID").get? 7 = some "UID"
      ∧ verifySecond ⟨.error "api down", .error "api down",
            .ok "a b c d e f g UID"⟩
          [] (fun _ => 0) (fun _ => true)
          ⟨[⟨"P1", "facebook", "FB1", "bob", ""⟩], [⟨"C1", "UID", "P1", true⟩]⟩
          "UID" "P1"
        = (false, ⟨[⟨"P1", "facebook", "FB1", "bob", ""⟩], []⟩, []) := by
  decide

/-- Claim C9 (amended): the second verification mode compares `userId`
against a per-platform extracted key: for twitter the token at index 7 of
the newline-normalized, space-split text of the first fetched tweet; for
reddit the same after replacing every LETTER `n` (not newline) by a space;
for facebook the 49 characters following the canned phrase "Saying hi to
#MyriadNetwork Public Key: " (null when absent).  On a key match it runs
the escrow sweep and returns true; on a mismatch it deletes the stored
credential and returns false; any error raised downstream — a throwing
fetch, an empty fetched-post array, or a throwing transfer — is swallowed
and reported as false, never re-thrown.  Stated for each platform in turn,
for a found persona and a found credential link. -/
theorem verifySecond_behaviour (env : SecondVerifyEnv) (allPosts : List Post)
    (balance : String → Nat) (transferOk : String → Bool) (db : CredDB)
    (userId peopleId : String) (people : People) (cred : UserCredential)
    (hp : db.people.find? (fun p => p.id == peopleId) = some people)
    (hc : db.credentials.find? (fun c =>
        c.userId == userId && c.peopleId == peopleId) = some cred) :
    (people.platform = "twitter" →
      (∀ msg, env.twFetch = .error msg →
        verifySecond env allPosts balance transferOk db userId peopleId
          = (false, db, []))
      ∧ (env.twFetch = .ok [] →
        verifySecond env allPosts balance transferOk db userId peopleId
          = (false, db, []))
      ∧ (∀ t0 rest, env.twFetch = .ok (t0 :: rest) →
          (twToken7 t0 = some userId →
            ((transferEscorwToUser allPosts balance transferOk peopleId
                userId).1 = none →
              verifySecond env allPosts balance transferOk db userId peopleId
                = (true, db,
                   (transferEscorwToUser allPosts balance transferOk peopleId
                     userId).2))
            ∧ (∀ e, (transferEscorwToUser allPosts balance transferOk peopleId
                userId).1 = some e →
              verifySecond env allPosts balance transferOk db userId peopleId
                = (false, db,
                   (transferEscorwToUser allPosts balance transferOk peopleId
                     userId).2)))
          ∧ (twToken7 t0 ≠ some userId →
            verifySecond env allPosts balance transferOk db userId peopleId
              = (false, deleteCredential cred.id db, []))))
    ∧ (people.platform = "reddit" →
      (∀ msg, env.rdFetch = .error msg →
        verifySecond env allPosts balance transferOk db userId peopleId
          = (false, db, []))
      ∧ (env.rdFetch = .ok [] →
        verifySecond env allPosts balance transferOk db userId peopleId
          = (false, db, []))
      ∧ (∀ t0 rest, env.rdFetch = .ok (t0 :: rest) →
          (rdToken7 t0 = some userId →
            ((transferEscorwToUser allPosts balance transferOk peopleId
                userId).1 = none →
              verifySecond env allPosts balance transferOk db userId peopleId
                = (true, db,
                   (transferEscorwToUser allPosts balance transferOk peopleId
                     userId).2))
            ∧ (∀ e, (transferEscorwToUser allPosts balance transferOk peopleId
                userId).1 = some e →
              verifySecond env allPosts balance transferOk db userId peopleId
                = (false, db,
                   (transferEscorwToUser allPosts balance transferOk peopleId
                     userId).2)))
          ∧ (rdToken7 t0 ≠ some userId →
            verifySecond env allPosts balance transferOk db userId peopleId
              = (false, deleteCredential cred.id db, []))))
    ∧ (people.platform = "facebook" →
      (∀ msg, env.fbFetch = .error msg →
        verifySecond env allPosts balance transferOk db userId peopleId
          = (false, db, []))
      ∧ (∀ posts, env.fbFetch = .ok posts →
          (fbExtractKey posts = some userId →
            ((transferEscorwToUser allPosts balance transferOk peopleId
                userId).1 = none →
              verifySecond env allPosts balance transferOk db userId peopleId
                = (true, db,
                   (transferEscorwToUser allPosts balance transferOk peopleId
                     userId).2))
            ∧ (∀ e, (transferEscorwToUser allPosts balance transferOk peopleId
                userId).1 = some e →
              verifySecond env allPosts balance transferOk db userId peopleId
                = (false, db,
                   (transferEscorwToUser allPosts balance transferOk peopleId
                     userId).2)))
          ∧ (fbExtractKey posts ≠ some userId →
            verifySecond env allPosts balance transferOk db userId peopleId
              = (false, deleteCredential cred.id db, [])))) := by
  refine ⟨fun hplat => ⟨?_, ?_, ?_⟩, fun hplat => ⟨?_, ?_, ?_⟩,
    fun hplat => ⟨?_, ?_⟩⟩
  · intro msg hf
    simp [verifySecond, hp, hc, hplat, hf]
  · intro hf
    simp [verifySecond, hp, hc, hplat, hf]
  · intro t0 rest hf
    refine ⟨fun hkey => ⟨fun htr => ?_, fun e htr => ?_⟩, fun hkey => ?_⟩
    · simp [verifySecond, hp, hc, hplat, hf, hkey, htr]
    · simp [verifySecond, hp, hc, hplat, hf, hkey, htr]
    · simp [verifySecond, hp, hc, hplat, hf, hkey]
  · intro msg hf
    simp [verifySecond, hp, hc, hplat, hf]
  · intro hf
    simp [verifySecond, hp, hc, hplat, hf]
  · intro t0 rest hf
    refine ⟨fun hkey => ⟨fun htr => ?_, fun e htr => ?_⟩, fun hkey => ?_⟩
    · simp [verifySecond, hp, hc, hplat, hf, hkey, htr]
    · simp [verifySecond, hp, hc, hplat, hf, hkey, htr]
    · simp [verifySecond, hp, hc, hplat, hf, hkey]
  · intro msg hf
    simp [verifySecond, hp, hc, hplat, hf]
  · intro posts hf
    refine ⟨fun hkey => ⟨fun htr => ?_, fun e htr => ?_⟩, fun hkey => ?_⟩
    · simp [verifySecond, hp, hc, hplat, hf, hkey, htr]
    · simp [verifySecond, hp, hc, hplat, hf, hkey, htr]
    · simp [verifySecond, hp, hc, hplat, hf, hkey]

/-- Witness for `verifySecond_behaviour`: a twitter title whose token 7
does not match deletes the credential; a reddit title likewise; a facebook
post carrying the canned phrase plus the key matches and returns true
after the escrow sweep. -/
theorem verifySecond_behaviour_witness :
    verifySecond ⟨.ok ["a b"], .error "down", .error "down"⟩ [] (fun _ => 0)
        (fun _ => true)
        ⟨[⟨"P2", "twitter", "T1", "alice", ""⟩], [⟨"C2", "U2", "P2", true⟩]⟩
        "U2" "P2"
      = (false, ⟨[⟨"P2", "twitter", "T1", "alice", ""⟩], []⟩, [])
    ∧ verifySecond ⟨.error "down", .ok ["c d"], .error "down"⟩ [] (fun _ => 0)
        (fun _ => true)
        ⟨[⟨"P3", "reddit", "R1", "carol", ""⟩], [⟨"C3", "U3", "P3", true⟩]⟩
        "U3" "P3"
      = (false, ⟨[⟨"P3", "reddit", "R1", "carol", ""⟩], []⟩, [])
    ∧ verifySecond ⟨.error "down", .error "down",
          .ok "Saying hi to #MyriadNetwork Public Key: KEY4"⟩
        [] (fun _ => 0) (fun _ => true)
        ⟨[⟨"P4", "facebook", "F1", "dave", ""⟩], [⟨"C4", "KEY4", "P4", true⟩]⟩
        "KEY4" "P4"
      = (true,
         ⟨[⟨"P4", "facebook", "F1", "dave", ""⟩], [⟨"C4", "KEY4", "P4", true⟩]⟩,
         [ChainEvent.connect, ChainEvent.disconnect]) :=
  ⟨(((verifySecond_behaviour ⟨.ok ["a b"], .error "down", .error "down"⟩ []
        (fun _ => 0) (fun _ => true)
        ⟨[⟨"P2", "twitter", "T1", "alice", ""⟩], [⟨"C2", "U2", "P2", true⟩]⟩
        "U2" "P2" ⟨"P2", "twitter", "T1", "alice", ""⟩ ⟨"C2", "U2", "P2", true⟩
        (by decide) (by decide)).1 rfl).2.2 "a b" [] rfl).2 (by decide),
   (((verifySecond_behaviour ⟨.error "down", .ok ["c d"], .error "down"⟩ []
        (fun _ => 0) (fun _ => true)
        ⟨[⟨"P3", "reddit", "R1", "carol", ""⟩], [⟨"C3", "U3", "P3", true⟩]⟩
        "U3" "P3" ⟨"P3", "reddit", "R1", "carol", ""⟩ ⟨"C3", "U3", "P3", true⟩
        (by decide) (by decide)).2.1 rfl).2.2 "c d" [] rfl).2 (by decide),
   ((((verifySecond_behaviour ⟨.error "down", .error "down",
          .ok "Saying hi to #MyriadNetwork Public Key: KEY4"⟩ []
        (fun _ => 0) (fun _ => true)
        ⟨[⟨"P4", "facebook", "F1", "dave", ""⟩], [⟨"C4", "KEY4", "P4", true⟩]⟩
        "KEY4" "P4" ⟨"P4", "facebook", "F1", "dave", ""⟩
        ⟨"C4", "KEY4", "P4", true⟩
        (by decide) (by decide)).2.2 rfl).2
      "Saying hi to #MyriadNetwork Public Key: KEY4" rfl).1 (by decide)).1
    (by decide)⟩

/-! ## Theorems for claim C10 -/

/-- Claim C10: the first verification mode throws NotFound("Platform does
not exist") for every platform other than twitter and reddit — including
facebook — leaving the store untouched and issuing no chain events; the
facebook platform is handled only by the second verification mode, which
on a facebook key match runs the escrow sweep and returns true. -/
theorem verifyUser_unknown_platform :
    (∀ (env : VerifyEnv) (db : CredDB) (allPosts : List Post)
        (balance : String → Nat) (transferOk : String → Bool)
        (fpid fcid publicKey username platform : String),
      platform ≠ "twitter" → platform ≠ "reddit" →
      verifyUser env db allPosts balance transferOk fpid fcid publicKey
          username platform
        = (.error (.notFound "Platform does not exist"), db, []))
    ∧ (∀ (env : SecondVerifyEnv) (allPosts : List Post)
        (balance : String → Nat) (transferOk : String → Bool) (db : CredDB)
        (userId peopleId : String) (people : People) (cred : UserCredential)
        (posts : String),
      db.people.find? (fun p => p.id == peopleId) = some people →
      people.platform = "facebook" →
      db.credentials.find? (fun c =>
          c.userId == userId && c.peopleId == peopleId) = some cred →
      env.fbFetch = .ok posts →
      fbExtractKey posts = some userId →
      (transferEscorwToUser allPosts balance transferOk peopleId userId).1 = none →
      verifySecond env allPosts balance transferOk db userId peopleId
        = (true, db,
           (transferEscorwToUser allPosts balance transferOk peopleId userId).2)) := by
  constructor
  · intro env db allPosts balance transferOk fpid fcid publicKey username
      platform h1 h2
    have e1 : (platform == "twitter") = false := by simpa using h1
    have e2 : (platform == "reddit") = false := by simpa using h2
    simp [verifyUser, e1, e2]
  · intro env allPosts balance transferOk db userId peopleId people cred posts
      hp hplat hc hf hkey htr
    simp [verifySecond, hp, hplat, hc, hf, hkey, htr]

/-- Witness for `verifyUser_unknown_platform`: platform "facebook" in the
first mode yields the NotFound error with no store change and no chain
events; in the second mode a facebook key match returns true after the
escrow sweep. -/
theorem verifyUser_unknown_platform_witness :
    verifyUser ⟨none, [], ⟨"r", "r", ""⟩, []⟩ ⟨[], []⟩ [] (fun _ => 0)
        (fun _ => true) "fp" "fc" "PK" "alice" "facebook"
      = (.error (.notFound "Platform does not exist"), ⟨[], []⟩, [])
    ∧ verifySecond ⟨.error "down", .error "down",
          .ok "Saying hi to #MyriadNetwork Public Key: UID"⟩
        [] (fun _ => 0) (fun _ => true)
        ⟨[⟨"P1", "facebook", "FB1", "bob", ""⟩], [⟨"C1", "UID", "P1", true⟩]⟩
        "UID" "P1"
      = (true, ⟨[⟨"P1", "facebook", "FB1", "bob", ""⟩], [⟨"C1", "UID", "P1", true⟩]⟩,
         [ChainEvent.connect, ChainEvent.disconnect]) :=
  ⟨verifyUser_unknown_platform.1 ⟨none, [], ⟨"r", "r", ""⟩, []⟩ ⟨[], []⟩ []
      (fun _ => 0) (fun _ => true) "fp" "fc" "PK" "alice" "facebook"
      (by decide) (by decide),
   verifyUser_unknown_platform.2 ⟨.error "down", .error "down",
        .ok "Saying hi to #MyriadNetwork Public Key: UID"⟩
      [] (fun _ => 0) (fun _ => true)
      ⟨[⟨"P1", "facebook", "FB1", "bob", ""⟩], [⟨"C1", "UID", "P1", true⟩]⟩
      "UID" "P1" ⟨"P1", "facebook", "FB1", "bob", ""⟩ ⟨"C1", "UID", "P1", true⟩
      "Saying hi to #MyriadNetwork Public Key: UID"
      (by decide) rfl (by decide) rfl (by decide) (by decide)⟩
